import Mathlib

/-!
Verification of the worker-safety-detection core logic.

Shallow embedding of the policy fragments of the repository:
* `detectViolations` embeds `SafetyDetector.detect_violations` (src/detect.py:34-53);
* `shouldDispatch` / `runLimiter` embed the inline alert-cooldown check of
  `SafetyDetector.process_video` (src/detect.py:109-118);
* `sendViolationAlert` embeds `send_violation_alert` (src/alert.py:10-59);
* `handleViolations` embeds the violation-handling block of the frame loop
  (src/detect.py:96-118), with Python local-variable binding made explicit.

Instants and confidences are modelled as rationals; time subtraction and the
strict comparisons mirror the source expressions.
-/

namespace WorkerSafety

/-- One detection produced by the inference collaborator: class name, confidence
and bounding box, as consumed by `detect_violations` (src/detect.py:42-51). -/
structure Detection where
  className : String
  confidence : ℚ
  bbox : List ℚ
deriving DecidableEq, Repr

/-- Embeds `SafetyDetector.detect_violations` (src/detect.py:34-53): the nested
loop over `results` and their boxes, appending a detection to the accumulator
iff `class_name in violation_classes and confidence > confidence_threshold`. -/
def detectViolations (results : List (List Detection)) (violationClasses : List String)
    (threshold : ℚ) : List Detection :=
  results.foldl
    (fun acc boxes =>
      boxes.foldl
        (fun acc2 box =>
          if box.className ∈ violationClasses ∧ threshold < box.confidence then
            acc2 ++ [box]
          else acc2)
        acc)
    []

/-- The filter predicate of `detect_violations`, written after the spec's words:
keep a detection iff its class is a violation class and its confidence is
strictly above the threshold. -/
def violationPred (violationClasses : List String) (threshold : ℚ) (d : Detection) : Bool :=
  decide (d.className ∈ violationClasses ∧ threshold < d.confidence)

theorem foldl_boxes_eq_filter (violationClasses : List String) (threshold : ℚ)
    (boxes : List Detection) (acc : List Detection) :
    boxes.foldl
      (fun acc2 box =>
        if box.className ∈ violationClasses ∧ threshold < box.confidence then
          acc2 ++ [box]
        else acc2)
      acc
      = acc ++ boxes.filter (violationPred violationClasses threshold) := by
  induction boxes generalizing acc with
  | nil => simp
  | cons b bs ih =>
    by_cases h : b.className ∈ violationClasses ∧ threshold < b.confidence
    · simp [List.foldl_cons, ih, violationPred, h, List.filter_cons]
    · simp [List.foldl_cons, ih, violationPred, h, List.filter_cons]

theorem detectViolations_eq_filter_flatten (results : List (List Detection))
    (violationClasses : List String) (threshold : ℚ) :
    detectViolations results violationClasses threshold
      = results.flatten.filter (violationPred violationClasses threshold) := by
  unfold detectViolations
  suffices h : ∀ acc : List Detection,
      results.foldl
        (fun acc boxes =>
          boxes.foldl
            (fun acc2 box =>
              if box.className ∈ violationClasses ∧ threshold < box.confidence then
                acc2 ++ [box]
              else acc2)
            acc)
        acc
        = acc ++ results.flatten.filter (violationPred violationClasses threshold) by
    simpa using h []
  induction results with
  | nil => simp
  | cons r rs ih =>
    intro acc
    simp only [List.foldl_cons]
    rw [foldl_boxes_eq_filter, ih, List.flatten_cons, List.filter_append, List.append_assoc]

/-- C1: the violation filter returns exactly the order-preserving subsequence of
the input detections whose class is in the violation-class set and whose
confidence is strictly greater than the threshold; a detection exactly at the
threshold is excluded. -/
theorem detectViolations_spec (results : List (List Detection))
    (violationClasses : List String) (threshold : ℚ) :
    detectViolations results violationClasses threshold
        = results.flatten.filter
            (fun d => decide (d.className ∈ violationClasses ∧ threshold < d.confidence))
      ∧ (detectViolations results violationClasses threshold).Sublist results.flatten
      ∧ ∀ d ∈ detectViolations results violationClasses threshold,
          d.className ∈ violationClasses ∧ threshold < d.confidence := by
  refine ⟨detectViolations_eq_filter_flatten results violationClasses threshold, ?_, ?_⟩
  · rw [detectViolations_eq_filter_flatten]
    exact List.filter_sublist _
  · intro d hd
    rw [detectViolations_eq_filter_flatten] at hd
    have := List.of_mem_filter hd
    simpa [violationPred] using this

/-- C7: the violation filter is idempotent — filtering its own output with the
same violation classes and threshold returns that output unchanged. -/
theorem detectViolations_idempotent (results : List (List Detection))
    (violationClasses : List String) (threshold : ℚ) :
    detectViolations [detectViolations results violationClasses threshold]
        violationClasses threshold
      = detectViolations results violationClasses threshold := by
  rw [detectViolations_eq_filter_flatten, detectViolations_eq_filter_flatten]
  simp only [List.flatten_cons, List.flatten_nil, List.append_nil, List.filter_filter]
  simp [Bool.and_self]

/-- The alert-cooldown state held on the detector object: `last_alert_time`
(initially `None`, src/detect.py:31) and `min_alert_interval`
(src/detect.py:32). -/
structure RateLimiterState where
  lastAlertTime : Option ℚ
  minInterval : ℚ
deriving DecidableEq, Repr

/-- The cooldown guard of src/detect.py:111:
`self.last_alert_time is None or (current_time - self.last_alert_time) > self.min_alert_interval`. -/
def dispatchAuthorized (s : RateLimiterState) (now : ℚ) : Bool :=
  match s.lastAlertTime with
  | none => true
  | some last => decide (s.minInterval < now - last)

/-- One check-and-update step of the inline rate limiter (src/detect.py:111-118):
when the guard passes, the alert is dispatched and `last_alert_time` is set to
`current_time`; otherwise the state is unchanged. -/
def shouldDispatch (s : RateLimiterState) (now : ℚ) : Bool × RateLimiterState :=
  if dispatchAuthorized s now then
    (true, { s with lastAlertTime := some now })
  else
    (false, s)

/-- Runs the rate limiter over a sequence of call times, collecting the boolean
decision of each call and the final state. -/
def runLimiter (s : RateLimiterState) : List ℚ → List Bool × RateLimiterState
  | [] => ([], s)
  | t :: ts =>
    let step := shouldDispatch s t
    let rest := runLimiter step.2 ts
    (step.1 :: rest.1, rest.2)

theorem runLimiter_minInterval (s : RateLimiterState) (ts : List ℚ) :
    ((runLimiter s ts).2).minInterval = s.minInterval := by
  induction ts generalizing s with
  | nil => rfl
  | cons t ts ih =>
    simp only [runLimiter]
    rw [ih]
    unfold shouldDispatch
    by_cases h : dispatchAuthorized s t = true <;> simp [h]

/-- C4: with `min_interval = 10s` and the initial state, the call sequence
`t0, t0+9, t0+10, t0+10.001` yields `true, false, false, true`: the first call
always authorizes, and an event arriving when exactly `min_interval` has
elapsed is suppressed by the strict comparison. -/
theorem rateLimiter_scenario (t0 : ℚ) :
    (runLimiter { lastAlertTime := none, minInterval := 10 }
        [t0, t0 + 9, t0 + 10, t0 + 10001/1000]).1
      = [true, false, false, true] := by
  have h9 : t0 + 9 - t0 = 9 := by ring
  have h10 : t0 + 10 - t0 = 10 := by ring
  have h10001 : t0 + 10001/1000 - t0 = 10001/1000 := by ring
  simp only [runLimiter, shouldDispatch, dispatchAuthorized, h9, h10, h10001]
  norm_num

/-- C5: given `min_interval ≥ 0`, one check-and-update step is monotone on
`last_alert_time`: the step either leaves it unchanged, or replaces it with the
current time, which is no smaller than the value it held. -/
theorem lastAlertTime_monotone (s : RateLimiterState) (now : ℚ)
    (hmin : 0 ≤ s.minInterval) :
    ((shouldDispatch s now).2).lastAlertTime = s.lastAlertTime
      ∨ (((shouldDispatch s now).2).lastAlertTime = some now
          ∧ ∀ l, s.lastAlertTime = some l → l ≤ now) := by
  unfold shouldDispatch
  by_cases h : dispatchAuthorized s now = true
  · refine Or.inr ⟨by simp [h], ?_⟩
    intro l hl
    unfold dispatchAuthorized at h
    rw [hl] at h
    have hlt : s.minInterval < now - l := by simpa using h
    linarith
  · exact Or.inl (by simp [h])

/-- Witness for C5 at a concrete state and time. -/
theorem lastAlertTime_monotone_witness :
    ((shouldDispatch { lastAlertTime := some 5, minInterval := 10 } 20).2).lastAlertTime
        = some 5
      ∨ (((shouldDispatch { lastAlertTime := some 5, minInterval := 10 } 20).2).lastAlertTime
            = some 20
          ∧ ∀ l, (some (5:ℚ) : Option ℚ) = some l → l ≤ 20) :=
  lastAlertTime_monotone { lastAlertTime := some 5, minInterval := 10 } 20 (by norm_num)

/-- C9: given `min_interval ≥ 0`, a backwards clock step (`now` strictly earlier
than the recorded `last_alert_time`) makes the check return false and leaves
the state unchanged. -/
theorem backwards_clock_suppresses (s : RateLimiterState) (now l : ℚ)
    (hmin : 0 ≤ s.minInterval) (hl : s.lastAlertTime = some l) (hlt : now < l) :
    shouldDispatch s now = (false, s) := by
  unfold shouldDispatch dispatchAuthorized
  rw [hl]
  have : ¬ s.minInterval < now - l := by linarith
  simp [this]

/-- Witness for C9 at a concrete state and time. -/
theorem backwards_clock_suppresses_witness :
    shouldDispatch { lastAlertTime := some 100, minInterval := 10 } 90
      = (false, { lastAlertTime := some 100, minInterval := 10 }) :=
  backwards_clock_suppresses { lastAlertTime := some 100, minInterval := 10 } 90 100
    (by norm_num) rfl (by norm_num)

theorem runLimiter_cons (s : RateLimiterState) (t : ℚ) (ts : List ℚ) :
    runLimiter s (t :: ts)
      = ((shouldDispatch s t).1 :: (runLimiter (shouldDispatch s t).2 ts).1,
         (runLimiter (shouldDispatch s t).2 ts).2) := rfl

theorem shouldDispatch_auth_eq (s0 : Option ℚ) (minI now : ℚ)
    (h : dispatchAuthorized ⟨s0, minI⟩ now = true) :
    shouldDispatch ⟨s0, minI⟩ now = (true, ⟨some now, minI⟩) := by
  simp [shouldDispatch, h]

theorem shouldDispatch_not_auth_eq (s0 : Option ℚ) (minI now : ℚ)
    (h : dispatchAuthorized ⟨s0, minI⟩ now = false) :
    shouldDispatch ⟨s0, minI⟩ now = (false, ⟨s0, minI⟩) := by
  simp [shouldDispatch, h]

theorem runLimiter_true_time_lb (minI : ℚ) (hmin : 0 ≤ minI) :
    ∀ (ts : List ℚ) (l : ℚ) (k : ℕ) (tk : ℚ),
      ts.get? k = some tk →
      ((runLimiter ⟨some l, minI⟩ ts).1).get? k = some true →
      l + minI < tk := by
  intro ts
  induction ts with
  | nil =>
    intro l k tk htk _
    simp at htk
  | cons t ts ih =>
    intro l k tk htk hres
    rw [runLimiter_cons] at hres
    by_cases hg : dispatchAuthorized ⟨some l, minI⟩ t = true
    · rw [shouldDispatch_auth_eq (some l) minI t hg] at hres
      have hguard : minI < t - l := by simpa [dispatchAuthorized] using hg
      cases k with
      | zero =>
        simp only [List.get?_cons_zero, Option.some.injEq] at htk
        subst htk
        linarith
      | succ k =>
        simp only [List.get?_cons_succ] at htk hres
        have := ih t k tk htk hres
        linarith
    · rw [shouldDispatch_not_auth_eq (some l) minI t (by simpa using hg)] at hres
      cases k with
      | zero =>
        simp at hres
      | succ k =>
        simp only [List.get?_cons_succ] at htk hres
        exact ih l k tk htk hres

theorem runLimiter_true_pairs (minI : ℚ) (hmin : 0 ≤ minI) :
    ∀ (ts : List ℚ) (s0 : Option ℚ) (i j : ℕ) (ti tj : ℚ),
      i < j →
      ts.get? i = some ti → ts.get? j = some tj →
      ((runLimiter ⟨s0, minI⟩ ts).1).get? i = some true →
      ((runLimiter ⟨s0, minI⟩ ts).1).get? j = some true →
      ti + minI < tj := by
  intro ts
  induction ts with
  | nil =>
    intro s0 i j ti tj hij hti htj hri hrj
    simp at hti
  | cons t ts ih =>
    intro s0 i j ti tj hij hti htj hri hrj
    rw [runLimiter_cons] at hri hrj
    cases j with
    | zero => omega
    | succ j =>
      simp only [List.get?_cons_succ] at htj hrj
      cases i with
      | zero =>
        simp only [List.get?_cons_zero, Option.some.injEq] at hti
        subst hti
        by_cases hg : dispatchAuthorized ⟨s0, minI⟩ t = true
        · rw [shouldDispatch_auth_eq s0 minI t hg] at hrj
          exact runLimiter_true_time_lb minI hmin ts t j tj htj hrj
        · rw [shouldDispatch_not_auth_eq s0 minI t (by simpa using hg)] at hri
          simp at hri
      | succ i =>
        simp only [List.get?_cons_succ] at hti hri
        by_cases hg : dispatchAuthorized ⟨s0, minI⟩ t = true
        · rw [shouldDispatch_auth_eq s0 minI t hg] at hri hrj
          exact ih (some t) i j ti tj (by omega) hti htj hri hrj
        · rw [shouldDispatch_not_auth_eq s0 minI t (by simpa using hg)] at hri hrj
          exact ih s0 i j ti tj (by omega) hti htj hri hrj

/-- C2: for every sequence of call times, with no monotonicity assumption on
the times, the rate limiter started in the initial state never returns true at
two calls whose times differ by less than `min_interval`. -/
theorem rateLimiter_no_double_dispatch (minI : ℚ) (times : List ℚ) (i j : ℕ)
    (ti tj : ℚ) (hij : i < j)
    (hti : times.get? i = some ti) (htj : times.get? j = some tj)
    (hri : ((runLimiter ⟨none, minI⟩ times).1).get? i = some true)
    (hrj : ((runLimiter ⟨none, minI⟩ times).1).get? j = some true) :
    ¬ |tj - ti| < minI := by
  rcases le_or_lt 0 minI with hmin | hmin
  · have hgap := runLimiter_true_pairs minI hmin times none i j ti tj hij hti htj hri hrj
    have habs : |tj - ti| = tj - ti := abs_of_pos (by linarith)
    rw [habs]
    linarith
  · have := abs_nonneg (tj - ti)
    linarith

/-- Witness for C2: calls at times 0, 20, 25 with `min_interval = 10`; the
first two calls both return true, and their times indeed do not differ by less
than the interval. -/
theorem rateLimiter_no_double_dispatch_witness :
    ¬ |(20:ℚ) - 0| < 10 :=
  rateLimiter_no_double_dispatch 10 [0, 20, 25] 0 1 0 20 (by norm_num)
    rfl rfl (by norm_num [runLimiter, shouldDispatch, dispatchAuthorized])
    (by norm_num [runLimiter, shouldDispatch, dispatchAuthorized])

/-- The exceptions caught by `send_violation_alert` (src/alert.py:54-59):
`telegram.error.TelegramError`, `FileNotFoundError`, and any other exception. -/
inductive PyErr where
  | telegramError (msg : String)
  | fileNotFound
  | other (msg : String)
deriving DecidableEq, Repr

/-- Observable effects of one call to `send_violation_alert`: whether a bot
object was constructed, whether a photo send was attempted, whether it
succeeded, and the log lines printed. -/
structure SendEffects where
  botConstructed : Bool
  sendAttempted : Bool
  sendSucceeded : Bool
  logs : List String
deriving DecidableEq, Repr

/-- How Python renders an optional path inside an f-string (`None` for the
absent case). -/
def pyOptStr : Option String → String
  | none => "None"
  | some s => s

/-- The log line printed by each `except` clause of `send_violation_alert`
(src/alert.py:54-59). -/
def sendErrorLog (imagePath : Option String) : PyErr → String
  | .telegramError m => "❌ Telegram error: " ++ m
  | .fileNotFound => "❌ Screenshot file not found: " ++ pyOptStr imagePath
  | .other m => "❌ Unexpected error sending alert: " ++ m

/-- Embeds `send_violation_alert` (src/alert.py:10-59). An empty violations
list returns before the `try` block. Otherwise the bot is constructed and, when
`image_path` is truthy and exists, the photo send is attempted with outcome
`sendPhoto`; every exception is caught, so the function always returns. The
filesystem is abstracted by `pathExists`. -/
def sendViolationAlert (botToken chatId : String) (imagePath : Option String)
    (violations : List Detection) (pathExists : String → Bool)
    (sendPhoto : Except PyErr Unit) : SendEffects :=
  if violations.isEmpty then
    { botConstructed := false, sendAttempted := false, sendSucceeded := false,
      logs := ["⚠️ No violations to report"] }
  else
    let truthyAndExists :=
      match imagePath with
      | none => false
      | some p => !p.isEmpty && pathExists p
    if truthyAndExists then
      match sendPhoto with
      | .ok _ =>
        { botConstructed := true, sendAttempted := true, sendSucceeded := true,
          logs := ["✅ Alert sent to Telegram"] }
      | .error e =>
        { botConstructed := true, sendAttempted := true, sendSucceeded := false,
          logs := [sendErrorLog imagePath e] }
    else
      { botConstructed := true, sendAttempted := false, sendSucceeded := false,
        logs := ["❌ Screenshot not found: " ++ pyOptStr imagePath] }

/-- The per-frame mutable names of `process_video` relevant to the violation
block: the local `screenshot_path` (outer `none` means the name was never
assigned, so reading it raises) and the instance field `last_alert_time`. -/
structure FrameState where
  screenshotVar : Option (Option String)
  lastAlertTime : Option ℚ
deriving DecidableEq, Repr

/-- The configuration keys read by the violation block of `process_video`. -/
structure AlertConfig where
  saveScreenshots : Bool
  enableAlerts : Bool
  minInterval : ℚ
  botToken : String
  chatId : String
deriving DecidableEq, Repr

/-- Uncaught Python runtime errors of the frame loop. -/
inductive PyFatal where
  | unboundLocal (name : String)
deriving DecidableEq, Repr

/-- Embeds the violation-handling block of `process_video`
(src/detect.py:96-118): when the frame has violations, `screenshot_path` is
assigned only if `save_screenshots` is set; when alerts are enabled and the
cooldown guard passes, `screenshot_path` is read to build the dispatch call —
an unassigned read raises — then the alert is sent and `last_alert_time` is
set to the current time. -/
def handleViolations (cfg : AlertConfig) (violations : List Detection)
    (saveResult : Option String) (now : ℚ) (pathExists : String → Bool)
    (sendPhoto : Except PyErr Unit) (st : FrameState) :
    Except PyFatal (FrameState × Option SendEffects) :=
  if violations.isEmpty then Except.ok (st, none)
  else
    let st1 := if cfg.saveScreenshots then { st with screenshotVar := some saveResult } else st
    if cfg.enableAlerts then
      if dispatchAuthorized ⟨st1.lastAlertTime, cfg.minInterval⟩ now then
        match st1.screenshotVar with
        | none => Except.error (PyFatal.unboundLocal "screenshot_path")
        | some p =>
          Except.ok ({ st1 with lastAlertTime := some now },
            some (sendViolationAlert cfg.botToken cfg.chatId p violations pathExists sendPhoto))
      else Except.ok (st1, none)
    else Except.ok (st1, none)

/-- C10: calling the alert sender with an empty violations list returns
immediately — no bot is constructed and no send is attempted — for every bot
token, chat id, image path, filesystem and send outcome. -/
theorem send_empty_violations (botToken chatId : String) (imagePath : Option String)
    (pathExists : String → Bool) (sendPhoto : Except PyErr Unit) :
    sendViolationAlert botToken chatId imagePath [] pathExists sendPhoto
      = { botConstructed := false, sendAttempted := false, sendSucceeded := false,
          logs := ["⚠️ No violations to report"] } := by
  simp [sendViolationAlert]

/-- C6: a failure of the downstream send never rolls back the rate-limiter
update: whenever the violation block dispatches (alerts enabled, cooldown guard
passed, `screenshot_path` readable), it completes normally with
`last_alert_time` set to the dispatch time, whatever the send outcome
`sendPhoto` is. -/
theorem send_failure_keeps_cooldown (cfg : AlertConfig) (violations : List Detection)
    (saveResult : Option String) (now : ℚ) (pathExists : String → Bool)
    (sendPhoto : Except PyErr Unit) (st : FrameState)
    (hnv : violations ≠ [])
    (halerts : cfg.enableAlerts = true)
    (hvar : cfg.saveScreenshots = true ∨ ∃ p, st.screenshotVar = some p)
    (hauth : dispatchAuthorized ⟨st.lastAlertTime, cfg.minInterval⟩ now = true) :
    ∃ st' eff, handleViolations cfg violations saveResult now pathExists sendPhoto st
        = Except.ok (st', some eff) ∧ st'.lastAlertTime = some now := by
  rcases violations with _ | ⟨v, vs⟩
  · exact absurd rfl hnv
  · by_cases hsave : cfg.saveScreenshots = true
    · exact ⟨⟨some saveResult, some now⟩,
        sendViolationAlert cfg.botToken cfg.chatId saveResult (v :: vs) pathExists sendPhoto,
        by simp [handleViolations, hsave, halerts, hauth], rfl⟩
    · rcases hvar with hvar | ⟨p, hp⟩
      · exact absurd hvar hsave
      · exact ⟨⟨st.screenshotVar, some now⟩,
          sendViolationAlert cfg.botToken cfg.chatId p (v :: vs) pathExists sendPhoto,
          by simp [handleViolations, hsave, halerts, hauth, hp], rfl⟩

/-- Witness for C6: a telegram error on the send still leaves
`last_alert_time` set to the dispatch time. -/
theorem send_failure_keeps_cooldown_witness :
    ∃ st' eff,
      handleViolations ⟨true, true, 10, "token", "chat"⟩ [⟨"no_helmet", 9/10, []⟩]
          (some "shot.jpg") 42 (fun _ => true)
          (Except.error (PyErr.telegramError "boom")) ⟨none, none⟩
        = Except.ok (st', some eff) ∧ st'.lastAlertTime = some 42 :=
  send_failure_keeps_cooldown ⟨true, true, 10, "token", "chat"⟩ [⟨"no_helmet", 9/10, []⟩]
    (some "shot.jpg") 42 (fun _ => true) (Except.error (PyErr.telegramError "boom"))
    ⟨none, none⟩ (by simp) rfl (Or.inl rfl) rfl

/-- C8: with screenshot saving disabled, alerts enabled and the cooldown guard
passing, the dispatch path reads the never-assigned local `screenshot_path`,
so the violation block raises an unbound-local error instead of sending. -/
theorem unbound_screenshot_read (cfg : AlertConfig) (violations : List Detection)
    (saveResult : Option String) (now : ℚ) (pathExists : String → Bool)
    (sendPhoto : Except PyErr Unit) (st : FrameState)
    (hnv : violations ≠ [])
    (hsave : cfg.saveScreenshots = false)
    (halerts : cfg.enableAlerts = true)
    (hvar : st.screenshotVar = none)
    (hauth : dispatchAuthorized ⟨st.lastAlertTime, cfg.minInterval⟩ now = true) :
    handleViolations cfg violations saveResult now pathExists sendPhoto st
      = Except.error (PyFatal.unboundLocal "screenshot_path") := by
  rcases violations with _ | ⟨v, vs⟩
  · exact absurd rfl hnv
  · simp [handleViolations, hsave, halerts, hauth, hvar]

/-- Witness for C8: the first violating frame of a fresh session with
`save_screenshots` off and alerts on raises the unbound-local error. -/
theorem unbound_screenshot_read_witness :
    handleViolations ⟨false, true, 10, "token", "chat"⟩ [⟨"no_helmet", 9/10, []⟩]
        none 0 (fun _ => true) (Except.ok ()) ⟨none, none⟩
      = Except.error (PyFatal.unboundLocal "screenshot_path") :=
  unbound_screenshot_read ⟨false, true, 10, "token", "chat"⟩ [⟨"no_helmet", 9/10, []⟩]
    none 0 (fun _ => true) (Except.ok ()) ⟨none, none⟩ (by simp) rfl rfl rfl rfl

/-- Counterexample for C3: with a failed screenshot write (`None` path), the
dispatch call is made but the sender attempts no send at all — the
notification is skipped, not sent without an attachment. -/
theorem screenshot_none_skips_notification_cex :
    handleViolations ⟨true, true, 10, "token", "chat"⟩ [⟨"no_helmet", 9/10, []⟩]
        none 0 (fun _ => false) (Except.ok ()) ⟨none, none⟩
      = Except.ok (⟨some none, some 0⟩,
          some { botConstructed := true, sendAttempted := false, sendSucceeded := false,
                 logs := ["❌ Screenshot not found: None"] }) := by
  rfl

/-- C3 amended: when the screenshot writer fails and returns none, the core
does not treat the failure as fatal — the violation block completes, the
sender is still invoked and the cooldown still starts — but the sender finds
no valid image path, logs that the screenshot was not found, and attempts no
send: the notification is skipped rather than delivered without an
attachment. -/
theorem screenshot_failure_nonfatal (cfg : AlertConfig) (violations : List Detection)
    (now : ℚ) (pathExists : String → Bool) (sendPhoto : Except PyErr Unit)
    (st : FrameState)
    (hnv : violations ≠ [])
    (hsave : cfg.saveScreenshots = true)
    (halerts : cfg.enableAlerts = true)
    (hauth : dispatchAuthorized ⟨st.lastAlertTime, cfg.minInterval⟩ now = true) :
    ∃ st' eff,
      handleViolations cfg violations none now pathExists sendPhoto st
        = Except.ok (st', some eff)
      ∧ st'.lastAlertTime = some now
      ∧ eff.sendAttempted = false
      ∧ eff.logs = ["❌ Screenshot not found: None"] := by
  rcases violations with _ | ⟨v, vs⟩
  · exact absurd rfl hnv
  · refine ⟨⟨some none, some now⟩,
      { botConstructed := true, sendAttempted := false, sendSucceeded := false,
        logs := ["❌ Screenshot not found: None"] }, ?_, rfl, rfl, rfl⟩
    simp [handleViolations, hsave, halerts, hauth, sendViolationAlert, pyOptStr]

/-- Witness for C3's amended statement at a concrete frame. -/
theorem screenshot_failure_nonfatal_witness :
    ∃ st' eff,
      handleViolations ⟨true, true, 10, "token", "chat"⟩ [⟨"no_helmet", 9/10, []⟩]
          none 5 (fun _ => true) (Except.ok ()) ⟨none, none⟩
        = Except.ok (st', some eff)
      ∧ st'.lastAlertTime = some 5
      ∧ eff.sendAttempted = false
      ∧ eff.logs = ["❌ Screenshot not found: None"] :=
  screenshot_failure_nonfatal ⟨true, true, 10, "token", "chat"⟩ [⟨"no_helmet", 9/10, []⟩]
    5 (fun _ => true) (Except.ok ()) ⟨none, none⟩ (by simp) rfl rfl rfl

end WorkerSafety
